import Mathlib

/-!
Shallow embedding of the `ephemeron` Kubernetes operator (Rust) and proofs
about it.  Pure functions of the source are translated directly; stateful
code (kube API calls, the outbound HTTP probe) is modelled by passing the
fetched state in as arguments, by oracle arguments for the outcome of
outbound calls, and by outcome records listing the writes the code issues.
Machine integers are modelled as `Nat`/`Int`, with wraparound written
explicitly where the Rust arithmetic can overflow.
-/

/-! ## Basic map model

Rust `BTreeMap<String, V>` is modelled as an association list with
key-replacing insert; only lookup/insert/append semantics are relied on. -/

abbrev StrMap := List (String × String)

/-- Lookup in an association list (`BTreeMap::get`). -/
def lookupKey {α : Type} (m : List (String × α)) (k : String) : Option α :=
  match m with
  | [] => none
  | (k1, v) :: rest => if k1 = k then some v else lookupKey rest k

/-- Key-replacing insert (`BTreeMap::insert`). -/
def mapInsert (m : StrMap) (k v : String) : StrMap :=
  match m with
  | [] => [(k, v)]
  | (k1, v1) :: rest => if k1 = k then (k, v) :: rest else (k1, v1) :: mapInsert rest k v

/-- Union of maps (`BTreeMap::append`): entries of `other` overwrite `m`. -/
def mapAppend (m other : StrMap) : StrMap :=
  other.foldl (fun acc p => mapInsert acc p.1 p.2) m

/-! ## Resource model (`src/resource/mod.rs`) -/

/-- Rust `HttpGetProbe`. -/
structure HttpGetProbe where
  path : String
  initialDelaySeconds : Option Int := none
  periodSeconds : Option Int := none
  timeoutSeconds : Option Int := none
deriving Repr, DecidableEq

/-- Rust `resource::EnvVar` (name/value only, no `valueFrom`). -/
structure EnvVar where
  name : String
  value : Option String := none
deriving Repr, DecidableEq

/-- Rust `k8s_openapi ResourceRequirements`, modelled as the two string maps. -/
structure ResourceRequirements where
  limits : StrMap := []
  requests : StrMap := []
deriving Repr, DecidableEq

/-- Rust `EphemeronService`. -/
structure EphemeronService where
  image : String
  command : Option (List String) := none
  workingDir : Option String := none
  port : Int
  tlsSecretName : Option String := none
  ingressAnnotations : StrMap := []
  readinessProbe : Option HttpGetProbe := none
  imagePullPolicy : Option String := none
  resources : Option ResourceRequirements := none
  env : Option (List EnvVar) := none
  podLabels : StrMap := []
deriving Repr, DecidableEq

/-- Rust `EphemeronSpec`; `DateTime<Utc>` is modelled as unix seconds. -/
structure EphemeronSpec where
  expirationTime : Int
  service : EphemeronService
deriving Repr, DecidableEq

/-- Rust `EphemeronCondition` (serde tag `type`); the timestamp is unix seconds. -/
inductive EphemeronCondition
  | podReady (status : Option Bool) (lastTransitionTime : Int)
  | available (status : Option Bool) (lastTransitionTime : Int)
deriving Repr, DecidableEq

/-- Rust `EphemeronStatus`. -/
structure EphemeronStatus where
  conditions : List EphemeronCondition := []
  observedGeneration : Option Int := none
deriving Repr, DecidableEq

/-- Object metadata of an Ephemeron.  The source unwraps `name`
(`Meta::name`), so it is kept total here; `uid` stays optional because
`to_owner_reference` panics when it is absent. -/
structure EphemeronMeta where
  name : String
  uid : Option String := none
  generation : Option Int := none
  annotations : StrMap := []
deriving Repr, DecidableEq

/-- The Ephemeron custom resource. -/
structure Ephemeron where
  metadata : EphemeronMeta
  spec : EphemeronSpec
  status : Option EphemeronStatus := none
deriving Repr, DecidableEq

/-- Rust `Ephemeron::new`: fresh metadata carrying only the name. -/
def Ephemeron.new (id : String) (spec : EphemeronSpec) : Ephemeron :=
  { metadata := { name := id }, spec := spec }

/-- Rust `Ephemeron::find_condition`. -/
def Ephemeron.findCondition (eph : Ephemeron) (f : EphemeronCondition → Bool) :
    Option EphemeronCondition :=
  match eph.status with
  | none => none
  | some s => s.conditions.find? f

/-- Rust `Ephemeron::is_pod_ready`: some condition matches
`PodReady { status: Some(true), .. }`. -/
def Ephemeron.isPodReady (eph : Ephemeron) : Bool :=
  (eph.findCondition fun c =>
    match c with
    | .podReady (some true) _ => true
    | _ => false).isSome

/-- Rust `Ephemeron::is_available`: some condition matches
`Available { status: Some(true), .. }`. -/
def Ephemeron.isAvailable (eph : Ephemeron) : Bool :=
  (eph.findCondition fun c =>
    match c with
    | .available (some true) _ => true
    | _ => false).isSome

/-- Rust `Ephemeron::has_tls`. -/
def Ephemeron.hasTls (eph : Ephemeron) : Bool :=
  eph.spec.service.tlsSecretName.isSome

/-! ## Condition status wire format (`src/resource/mod.rs`) -/

/-- Rust `condition_status_ser`. -/
def condition_status_ser (status : Option Bool) : String :=
  match status with
  | some true => "True"
  | some false => "False"
  | none => "Unknown"

/-- Rust `condition_status_de`; the error carries the rejected string. -/
def condition_status_de (s : String) : Except String (Option Bool) :=
  if s = "Unknown" then .ok none
  else if s = "True" then .ok (some true)
  else if s = "False" then .ok (some false)
  else .error s

/-! ## Token issuer (`src/api/auth/mod.rs`) -/

/-- Rust `auth::Error` without `CreateToken` (JWT signing is modelled as
always succeeding; the key material is outside the embedding). -/
inductive AuthError
  | appLookup
  | invalidKey
  | invalidUserId
  | invalidGroupId
deriving Repr, DecidableEq

/-- HTTP status of each auth error response (`impl Reply for auth::Error`). -/
def authErrorStatus (e : AuthError) : Nat :=
  match e with
  | .appLookup => 401
  | .invalidKey => 401
  | .invalidUserId => 400
  | .invalidGroupId => 400

/-- Rust `auth::Claims`; `exp` is unix seconds. -/
structure Claims where
  sub : String
  exp : Nat
  gid : Option String := none
deriving Repr, DecidableEq

/-- Rust `auth::TokenRequest`. -/
structure TokenRequest where
  app : String
  key : String
  uid : String
  gid : Option String := none
deriving Repr, DecidableEq

/-- Rust `is_valid_id`.  `str::len` and `is_empty` count bytes, hence
`utf8ByteSize`; `is_ascii_alphanumeric` coincides with `Char.isAlphanum`. -/
def is_valid_id (s : String) (n : Nat) : Bool :=
  s.utf8ByteSize != 0 && decide (s.utf8ByteSize ≤ n) && s.toList.all Char.isAlphanum

/-- Checked `usize` subtraction: `none` models the arithmetic underflow of
`63 - (app.len() + 1)` (panic under overflow checks, wraparound without). -/
def checkedSub (a b : Nat) : Option Nat :=
  if b ≤ a then some (a - b) else none

/-- Rust `auth::token` handler, success path of JWT signing.  The outer
`none` models the `usize` underflow of `max_id_len`; otherwise the result
is the issued claims (`create_jwt`, with `exp = now + 5 minutes`) or the
error response.  `now` is unix seconds. -/
def token (apps : StrMap) (request : TokenRequest) (now : Nat) :
    Option (Except AuthError Claims) :=
  match lookupKey apps request.app with
  | none => some (.error .appLookup)
  | some key =>
    if request.key = key then
      match checkedSub 63 (request.app.utf8ByteSize + 1) with
      | none => none
      | some max_id_len =>
        if !is_valid_id request.uid max_id_len then some (.error .invalidUserId)
        else
          let sub := request.uid ++ "." ++ request.app
          match request.gid with
          | some gid =>
            if !is_valid_id gid max_id_len then some (.error .invalidGroupId)
            else some (.ok { sub := sub, exp := now + 300, gid := some (gid ++ "." ++ request.app) })
          | none => some (.ok { sub := sub, exp := now + 300, gid := none })
    else some (.error .invalidKey)

/-! ## API handlers (`src/api/handlers.rs`) -/

/-- Annotation key used for access control (`CREATED_BY`). -/
def CREATED_BY : String := "ephemerons.qualified.io/created-by"

/-- Pod label key added when the claims carry `gid` (`GROUP_LABEL`). -/
def GROUP_LABEL : String := "ephemerons.qualified.io/group"

/-- Rust `handlers::Error` variants reachable in the embedding. -/
inductive ApiError
  | presetLookup (preset : String)
  | invalidLifetime (minutes : Nat)
  | forbidden
deriving Repr, DecidableEq

/-- Outcome of a kube API write, as an oracle input. -/
inductive KubeResult
  | ok
  | apiErr (code : Nat)
  | connErr
deriving Repr, DecidableEq

/-- Status forwarding for structured upstream errors:
`StatusCode::from_u16(code).unwrap_or(BAD_REQUEST)`. -/
def statusFromCode (code : Nat) : Nat :=
  if 100 ≤ code ∧ code ≤ 999 then code else 400

/-- Rust `get_duration`.  `minutes * 60` is `u32` arithmetic: it wraps
modulo `2 ^ 32` (release profile; debug builds panic at the overflow).
`chrono::Duration::from_std` fails only beyond `i64::MAX` milliseconds.
The result is whole seconds. -/
def get_duration (minutes : Nat) : Except ApiError Nat :=
  let secs := (minutes * 60) % 2 ^ 32
  if secs * 1000 ≤ 2 ^ 63 - 1 then .ok secs else .error (.invalidLifetime minutes)

/-- Rust `has_access`. -/
def has_access (eph : Ephemeron) (sub : String) : Bool :=
  ((lookupKey eph.metadata.annotations CREATED_BY).map (fun owner => owner == sub)).getD false

/-- Payload of `POST /` as read by `handlers::create`. -/
structure PresetPayload where
  preset : String
  lifetimeMinutes : Nat
deriving Repr, DecidableEq

/-- Payload of `PATCH /{id}` as read by `handlers::patch`. -/
structure PatchPayload where
  lifetimeMinutes : Nat
deriving Repr, DecidableEq

/-- Result of fetching the Ephemeron named in the request path. -/
inductive FetchResult
  | ok (eph : Ephemeron)
  | apiErr (code : Nat)
  | connErr
deriving Repr, DecidableEq

/-- Response of `handlers::create` on success (202 with `{id, expirationTime}`). -/
structure CreateResponse where
  status : Nat
  id : String
  expirationTime : Int
deriving Repr, DecidableEq

/-- What `handlers::create` did: the object sent to `Api::create` plus the
HTTP response; on an error reply only the status (and message kind) matter. -/
structure CreateOutcome where
  createdEph : Ephemeron
  response : CreateResponse
deriving Repr, DecidableEq

/-- Rust `handlers::create`.  `id` is the generated `xid`, `now` the
current time in unix seconds, and `createRes` the outcome of the
`Api::create` call.  On success the server is modelled as storing the
request object unchanged. -/
def handlers_create (claims : Claims) (payload : PresetPayload)
    (presets : List (String × EphemeronService)) (id : String) (now : Int)
    (createRes : KubeResult) : Except (ApiError ⊕ Nat) CreateOutcome :=
  match lookupKey presets payload.preset with
  | none => .error (.inl (.presetLookup payload.preset))
  | some preset =>
    match get_duration payload.lifetimeMinutes with
    | .error e => .error (.inl e)
    | .ok secs =>
      let eph0 := Ephemeron.new id { expirationTime := now + secs, service := preset }
      let eph1 := { eph0 with
        metadata := { eph0.metadata with
          annotations := mapInsert eph0.metadata.annotations CREATED_BY claims.sub } }
      let eph2 :=
        match claims.gid with
        | some gid => { eph1 with
            spec := { eph1.spec with
              service := { eph1.spec.service with
                podLabels := mapInsert eph1.spec.service.podLabels GROUP_LABEL gid } } }
        | none => eph1
      match createRes with
      | .ok => .ok { createdEph := eph2,
                     response := { status := 202, id := id,
                                   expirationTime := eph2.spec.expirationTime } }
      | .apiErr code => .error (.inr (statusFromCode code))
      | .connErr => .error (.inr 500)

/-- Body of the 200 response of `GET /{id}`. -/
structure HostInfo where
  host : Option String
  expirationTime : Int
  tls : Bool
deriving Repr, DecidableEq

/-- Response of `handlers::get`: status plus body when 200. -/
structure GetOutcome where
  status : Nat
  body : Option HostInfo
deriving Repr, DecidableEq

/-- Rust `handlers::get`. -/
def handlers_get (fetch : FetchResult) (claims : Claims) : GetOutcome :=
  match fetch with
  | .apiErr code => { status := statusFromCode code, body := none }
  | .connErr => { status := 500, body := none }
  | .ok eph =>
    if !has_access eph claims.sub then { status := 403, body := none }
    else
      { status := 200,
        body := some { host := lookupKey eph.metadata.annotations "host",
                       expirationTime := eph.spec.expirationTime,
                       tls := eph.spec.service.tlsSecretName.isSome } }

/-- Response and effect of `handlers::patch`: `patchRequested` is the new
`spec.expirationTime` sent in the merge patch, `none` when no patch was
issued; `body` is the `expirationTime` of the 200 response. -/
structure PatchOutcome where
  status : Nat
  patchRequested : Option Int
  body : Option Int
deriving Repr, DecidableEq

/-- Rust `handlers::patch`; `patchRes` is the outcome of `Api::patch`. -/
def handlers_patch (fetch : FetchResult) (claims : Claims) (payload : PatchPayload)
    (now : Int) (patchRes : KubeResult) : PatchOutcome :=
  match fetch with
  | .apiErr code => { status := statusFromCode code, patchRequested := none, body := none }
  | .connErr => { status := 500, patchRequested := none, body := none }
  | .ok eph =>
    if !has_access eph claims.sub then
      { status := 403, patchRequested := none, body := none }
    else
      match get_duration payload.lifetimeMinutes with
      | .error _ => { status := 400, patchRequested := none, body := none }
      | .ok secs =>
        match patchRes with
        | .ok => { status := 200, patchRequested := some (now + secs), body := some (now + secs) }
        | .apiErr code =>
          { status := statusFromCode code, patchRequested := some (now + secs), body := none }
        | .connErr => { status := 500, patchRequested := some (now + secs), body := none }

/-- Response and effect of `handlers::delete`: whether the
background-propagation delete was issued. -/
structure DeleteOutcome where
  status : Nat
  deleteIssued : Bool
deriving Repr, DecidableEq

/-- Rust `handlers::delete`; `deleteRes` is the outcome of `Api::delete`. -/
def handlers_delete (fetch : FetchResult) (claims : Claims)
    (deleteRes : KubeResult) : DeleteOutcome :=
  match fetch with
  | .apiErr code => { status := statusFromCode code, deleteIssued := false }
  | .connErr => { status := 500, deleteIssued := false }
  | .ok eph =>
    if !has_access eph claims.sub then { status := 403, deleteIssued := false }
    else
      match deleteRes with
      | .ok => { status := 204, deleteIssued := true }
      | .apiErr code => { status := statusFromCode code, deleteIssued := true }
      | .connErr => { status := 500, deleteIssued := true }

/-! ## Controller shared pieces (`src/controller/mod.rs`) -/

/-- Controller namespace constant `NS`. -/
def NS : String := "default"

/-- Constant `PROJECT_NAME`. -/
def PROJECT_NAME : String := "ephemeron"

/-- Rust `make_common_labels`. -/
def make_common_labels (name : String) : StrMap :=
  [("app.kubernetes.io/name", name), ("app.kubernetes.io/managed-by", PROJECT_NAME)]

/-- Kubernetes `OwnerReference`. -/
structure OwnerReference where
  apiVersion : String
  kind : String
  name : String
  uid : String
  controller : Option Bool := none
  blockOwnerDeletion : Option Bool := none
deriving Repr, DecidableEq

/-- Rust `to_owner_reference`; `none` models the `.expect(".metadata.uid")`
panic when the Ephemeron has no uid. -/
def to_owner_reference (eph : Ephemeron) : Option OwnerReference :=
  eph.metadata.uid.map fun uid =>
    { apiVersion := "qualified.io/v1alpha1", kind := "Ephemeron",
      name := eph.metadata.name, uid := uid,
      controller := some true, blockOwnerDeletion := some true }

/-- Kubernetes `ObjectMeta` for child resources. -/
structure ObjectMeta where
  name : Option String := none
  inNamespace : Option String := none
  labels : Option StrMap := none
  annotations : Option StrMap := none
  ownerReferences : Option (List OwnerReference) := none
deriving Repr, DecidableEq

/-- Requeue action of the controller runtime: `Action::requeue(d)` (seconds)
or `Action::await_change()`. -/
inductive ReconcilerAction
  | requeueAfter (secs : Nat)
  | awaitChange
deriving Repr, DecidableEq

/-! ## Pod sub-reconciler (`src/controller/pod.rs`) -/

/-- Kubernetes `IntOrString`. -/
inductive IntOrString
  | int (value : Int)
  | str (value : String)
deriving Repr, DecidableEq

/-- Kubernetes `EnvVar` (the full one, with `valueFrom`). -/
structure KubeEnvVar where
  name : String
  value : Option String := none
  valueFrom : Option Unit := none
deriving Repr, DecidableEq

/-- Kubernetes `HTTPGetAction` (fields the source sets). -/
structure HTTPGetAction where
  path : Option String := none
  port : IntOrString
deriving Repr, DecidableEq

/-- Kubernetes `Probe` (fields the source sets). -/
structure KubeProbe where
  httpGet : Option HTTPGetAction := none
  initialDelaySeconds : Option Int := none
  periodSeconds : Option Int := none
  timeoutSeconds : Option Int := none
deriving Repr, DecidableEq

/-- Kubernetes `ContainerPort` (field the source sets). -/
structure ContainerPort where
  containerPort : Int
deriving Repr, DecidableEq

/-- Kubernetes `Container` (fields the source sets). -/
structure Container where
  name : String
  image : Option String := none
  imagePullPolicy : Option String := none
  command : Option (List String) := none
  env : Option (List KubeEnvVar) := none
  workingDir : Option String := none
  ports : Option (List ContainerPort) := none
  readinessProbe : Option KubeProbe := none
  resources : Option ResourceRequirements := none
deriving Repr, DecidableEq

/-- Kubernetes `PodSpec` (fields the source sets). -/
structure PodSpec where
  containers : List Container
  restartPolicy : Option String := none
  enableServiceLinks : Option Bool := none
deriving Repr, DecidableEq

/-- Kubernetes pod condition (fields the source reads). -/
structure PodCondition where
  type_ : String
  status : String
deriving Repr, DecidableEq

/-- Kubernetes `PodStatus` (field the source reads). -/
structure PodStatus where
  conditions : Option (List PodCondition) := none
deriving Repr, DecidableEq

/-- Kubernetes `Pod`. -/
structure Pod where
  metadata : ObjectMeta
  spec : Option PodSpec := none
  status : Option PodStatus := none
deriving Repr, DecidableEq

/-- Rust `pod::pod_is_ready`: some condition has `type == "Ready"` and
`status == "True"`. -/
def pod_is_ready (pod : Pod) : Bool :=
  ((pod.status.bind fun s => s.conditions).map fun cs =>
    cs.any fun c => c.type_ == "Ready" && c.status == "True").getD false

/-- Rust `pod::build_pod`; `none` models the missing-uid panic of
`to_owner_reference`. -/
def build_pod (eph : Ephemeron) : Option Pod :=
  (to_owner_reference eph).map fun ownerRef =>
    let name := eph.metadata.name
    let labels := mapAppend eph.spec.service.podLabels (make_common_labels name)
    { metadata := { name := some name, inNamespace := some NS,
                    ownerReferences := some [ownerRef], labels := some labels },
      spec := some
        { containers :=
            [{ name := "container",
               image := some eph.spec.service.image,
               imagePullPolicy := eph.spec.service.imagePullPolicy,
               command := some (eph.spec.service.command.getD []),
               env := eph.spec.service.env.map fun v =>
                 v.map fun e => { name := e.name, value := e.value, valueFrom := none },
               workingDir := eph.spec.service.workingDir,
               ports := some [{ containerPort := eph.spec.service.port }],
               readinessProbe := eph.spec.service.readinessProbe.map fun p =>
                 { httpGet := some { path := some p.path, port := .int eph.spec.service.port },
                   initialDelaySeconds := p.initialDelaySeconds,
                   periodSeconds := p.periodSeconds,
                   timeoutSeconds := p.timeoutSeconds },
               resources := eph.spec.service.resources }],
          restartPolicy := some "Always",
          enableServiceLinks := some false } }

/-- Errors of `pod::reconcile` reachable in the embedding. -/
inductive PodError
  | createPod
deriving Repr, DecidableEq

/-- Effects and result of `pod::reconcile`: conditions written (as the
status value applied), the pod creation request if one was issued, and the
returned action (`none` = `Done`). -/
structure PodOutcome where
  podReadySet : Option (Option Bool) := none
  availableSet : Option (Option Bool) := none
  createdPod : Option Pod := none
  action : Option ReconcilerAction := none
deriving Repr, DecidableEq

/-- Rust `pod::reconcile`, success path of the kube reads and condition
writes.  `pod` is the result of `Api::get_opt`, `createRes` the outcome of
`Api::create`; the outer `none` models the missing-uid panic inside
`build_pod`. -/
def pod_reconcile (eph : Ephemeron) (pod : Option Pod) (createRes : KubeResult) :
    Option (Except PodError PodOutcome) :=
  match pod with
  | some p =>
    if eph.isPodReady == pod_is_ready p then
      some (.ok { podReadySet := none, availableSet := none, createdPod := none, action := none })
    else
      some (.ok { podReadySet := some (some (pod_is_ready p)), availableSet := none,
                  createdPod := none, action := some .awaitChange })
  | none =>
    (build_pod eph).map fun newPod =>
      match createRes with
      | .ok => .ok { podReadySet := some (some false), availableSet := some (some false),
                     createdPod := some newPod, action := some .awaitChange }
      | .apiErr 409 => .ok { podReadySet := some (some false), availableSet := some (some false),
                             createdPod := some newPod, action := some .awaitChange }
      | .apiErr _ => .error .createPod
      | .connErr => .error .createPod

/-! ## Ingress sub-reconciler (`src/controller/ingress.rs`) -/

/-- Kubernetes `ServiceBackendPort`. -/
structure ServiceBackendPort where
  number : Option Int := none
  name : Option String := none
deriving Repr, DecidableEq

/-- Kubernetes `IngressServiceBackend`. -/
structure IngressServiceBackend where
  name : String
  port : Option ServiceBackendPort := none
deriving Repr, DecidableEq

/-- Kubernetes `IngressBackend`. -/
structure IngressBackend where
  service : Option IngressServiceBackend := none
  resource : Option Unit := none
deriving Repr, DecidableEq

/-- Kubernetes `HTTPIngressPath`. -/
structure HTTPIngressPath where
  path : Option String := none
  pathType : Option String := none
  backend : IngressBackend
deriving Repr, DecidableEq

/-- Kubernetes `HTTPIngressRuleValue`. -/
structure HTTPIngressRuleValue where
  paths : List HTTPIngressPath
deriving Repr, DecidableEq

/-- Kubernetes `IngressRule`. -/
structure IngressRule where
  host : Option String := none
  http : Option HTTPIngressRuleValue := none
deriving Repr, DecidableEq

/-- Kubernetes `IngressTLS`. -/
structure IngressTLS where
  hosts : Option (List String) := none
  secretName : Option String := none
deriving Repr, DecidableEq

/-- Kubernetes `IngressSpec` (fields relevant to the source). -/
structure IngressSpec where
  rules : Option (List IngressRule) := none
  tls : Option (List IngressTLS) := none
deriving Repr, DecidableEq

/-- Kubernetes `Ingress`. -/
structure Ingress where
  metadata : ObjectMeta
  spec : Option IngressSpec := none
deriving Repr, DecidableEq

/-- Rust `ingress::build_ingress`; `none` models the missing-uid panic of
`to_owner_reference`.  Fields the source leaves at `..Default::default()`
(notably `metadata.annotations` and `spec.tls`) stay `none`. -/
def build_ingress (eph : Ephemeron) (domain : String) : Option Ingress :=
  (to_owner_reference eph).map fun ownerRef =>
    let name := eph.metadata.name
    { metadata := { name := some name, inNamespace := some NS,
                    labels := some (make_common_labels name),
                    ownerReferences := some [ownerRef] },
      spec := some
        { rules := some
            [{ host := some (name ++ "." ++ domain),
               http := some
                 { paths :=
                     [{ path := some "/",
                        pathType := some "Prefix",
                        backend :=
                          { service := some
                              { name := name,
                                port := some { number := some eph.spec.service.port,
                                               name := none } },
                            resource := none } }] } }],
          tls := none } }

/-! ## Endpoints + external probe sub-reconciler (`src/controller/endpoints.rs`) -/

/-- Kubernetes `EndpointSubset` (field the source reads); addresses are
kept as opaque strings. -/
structure EndpointSubset where
  addresses : Option (List String) := none
deriving Repr, DecidableEq

/-- Kubernetes `Endpoints` (field the source reads). -/
structure Endpoints where
  subsets : Option (List EndpointSubset) := none
deriving Repr, DecidableEq

/-- The `has_ready` computation of `endpoints::reconcile`: some subset has a
non-empty `addresses` list. -/
def endpoints_has_ready (eps : Endpoints) : Bool :=
  (eps.subsets.map fun ess =>
    ess.any fun es => (es.addresses.map fun a => !a.isEmpty).getD false).getD false

/-- Outcome of the out-of-cluster HTTP GET, as an oracle input:
a response with a status code, or a transport error. -/
inductive ProbeOutcome
  | status (code : Nat)
  | connError
deriving Repr, DecidableEq

/-- Effects and result of `endpoints::reconcile`: the URI probed (if a GET
was issued), the merge-patched `host` annotation value (if patched; the
inner `none` is JSON `null`), the `Available` condition value applied (if
any), and the returned action (`none` = `Done`). -/
structure EndpointsOutcome where
  probeUri : Option String := none
  hostPatch : Option (Option String) := none
  availableSet : Option (Option Bool) := none
  action : Option ReconcilerAction := none
deriving Repr, DecidableEq

/-- Rust `endpoints::reconcile`, success path of the kube calls.
`endpoints` is the result of `Api::get_opt`, `probe` the outcome of the
`hyper` GET (consulted only when a probe is issued).  The probe URI is
`http://` ++ authority ++ path, as built by `Uri::builder`. -/
def endpoints_reconcile (eph : Ephemeron) (domain : String)
    (endpoints : Option Endpoints) (probe : ProbeOutcome) : EndpointsOutcome :=
  let name := eph.metadata.name
  match endpoints with
  | none => { action := some (.requeueAfter 2) }
  | some eps =>
    let has_ready := endpoints_has_ready eps
    match eph.isAvailable, has_ready with
    | true, true => { action := none }
    | false, false => { action := some (.requeueAfter 1) }
    | _, available =>
      if available then
        let host := name ++ "." ++ domain
        match eph.spec.service.readinessProbe with
        | some probeSpec =>
          let uri := "http://" ++ host ++ probeSpec.path
          match probe with
          | .status code =>
            if code = 200 then
              { probeUri := some uri, hostPatch := some (some host),
                availableSet := some (some true), action := some .awaitChange }
            else
              { probeUri := some uri, hostPatch := none, availableSet := none,
                action := some (.requeueAfter 1) }
          | .connError =>
            { probeUri := some uri, hostPatch := some none,
              availableSet := some (some false), action := some .awaitChange }
        | none =>
          { probeUri := none, hostPatch := some (some host),
            availableSet := some (some true), action := some .awaitChange }
      else
        { probeUri := none, hostPatch := some none,
          availableSet := some (some false), action := some .awaitChange }

/-! ## Helper lemmas -/

/-- `get_duration` never rejects a `u32` input: the wrapped value stays far
below the `chrono` ceiling of `i64::MAX` milliseconds. -/
theorem get_duration_eq (m : Nat) : get_duration m = Except.ok ((m * 60) % 2 ^ 32) := by
  have h1 : (m * 60) % 2 ^ 32 < 2 ^ 32 := Nat.mod_lt _ (by norm_num)
  have h2 : (m * 60) % 2 ^ 32 * 1000 ≤ 2 ^ 63 - 1 := by omega
  simp only [get_duration]
  rw [if_pos h2]

/-- Unfolding of `has_access` when the `created-by` annotation is present. -/
theorem has_access_of_owner (eph : Ephemeron) (owner sub : String)
    (hOwner : lookupKey eph.metadata.annotations CREATED_BY = some owner) :
    has_access eph sub = (owner == sub) := by
  simp [has_access, hOwner]

/-- `has_access` is false when the `created-by` annotation is absent. -/
theorem has_access_of_no_owner (eph : Ephemeron) (sub : String)
    (hNone : lookupKey eph.metadata.annotations CREATED_BY = none) :
    has_access eph sub = false := by
  simp [has_access, hNone]

/-- Unfolding of `is_valid_id` into its three propositional conjuncts. -/
theorem is_valid_id_iff (s : String) (n : Nat) :
    is_valid_id s n = true ↔
      (s.utf8ByteSize ≠ 0 ∧ s.utf8ByteSize ≤ n ∧ s.toList.all Char.isAlphanum = true) := by
  simp [is_valid_id, Bool.and_eq_true, bne_iff_ne, decide_eq_true_eq, and_assoc]

/-! ## Claim C8: condition-status wire format round trip -/

/-- Claim C8: the condition-status serializer and deserializer form a
bijective round trip between `{some true, some false, none}` and
`{"True", "False", "Unknown"}`: deserializing a serialized value yields it
back, every successful deserialization is a right inverse of
serialization, and deserialization succeeds exactly on the three wire
strings. -/
theorem condition_status_round_trip :
    (∀ v : Option Bool, condition_status_de (condition_status_ser v) = Except.ok v) ∧
    (∀ (s : String) (v : Option Bool),
      condition_status_de s = Except.ok v → condition_status_ser v = s) ∧
    (∀ s : String,
      (∃ v, condition_status_de s = Except.ok v) ↔ (s = "True" ∨ s = "False" ∨ s = "Unknown")) := by
  refine ⟨?_, ?_, ?_⟩
  · intro v
    rcases v with _ | b
    · rfl
    · cases b <;> rfl
  · intro s v h
    unfold condition_status_de at h
    split_ifs at h with h1 h2 h3
    · cases h
      subst h1
      rfl
    · cases h
      subst h2
      rfl
    · cases h
      subst h3
      rfl
  · intro s
    constructor
    · rintro ⟨v, h⟩
      unfold condition_status_de at h
      split_ifs at h with h1 h2 h3
      · exact Or.inr (Or.inr h1)
      · exact Or.inl h2
      · exact Or.inr (Or.inl h3)
    · rintro (rfl | rfl | rfl)
      · exact ⟨some true, rfl⟩
      · exact ⟨some false, rfl⟩
      · exact ⟨none, rfl⟩

/-- Claim C8 (witness): concrete round-trip instances obtained from
`condition_status_round_trip`. -/
theorem condition_status_round_trip_witness :
    condition_status_de (condition_status_ser (some true)) = Except.ok (some true) ∧
    (∃ v, condition_status_de "Unknown" = Except.ok v) :=
  ⟨condition_status_round_trip.1 (some true),
   (condition_status_round_trip.2.2 "Unknown").mpr (Or.inr (Or.inr rfl))⟩

/-! ## Claim C3: lifetime overflow is not rejected -/

/-- Claim C3 (code bug evidence): with `lifetimeMinutes = 71582789` the
`u32` product `minutes * 60` overflows, yet `get_duration` silently wraps
it to 44 seconds and succeeds instead of rejecting with a 400
(`InvalidLifetime`); debug builds would panic at the multiplication. -/
theorem get_duration_overflow_wraps :
    2 ^ 32 ≤ 71582789 * 60 ∧ get_duration 71582789 = Except.ok 44 := by
  constructor
  · norm_num
  · rw [get_duration_eq]
    rfl


/-! ## Claim C2: ingress contents -/

/-- Service descriptor for the C2 evidence: caller supplies both
`ingressAnnotations` and `tlsSecretName`. -/
def c2Service : EphemeronService :=
  { image := "nginx", port := 80, tlsSecretName := some "tls-secret",
    ingressAnnotations := [("kubernetes.io/ingress.class", "nginx")] }

/-- Ephemeron for the C2 evidence. -/
def c2Eph : Ephemeron :=
  { metadata := { name := "x2", uid := some "uid-2" },
    spec := { expirationTime := 100, service := c2Service } }

/-- Claim C2 (code bug evidence): `build_ingress` produces the single
`host = <id>.<domain>` rule routing exactly `/` with type `Prefix`, but it
carries no annotations and no TLS block even though the Ephemeron supplies
both `ingressAnnotations` and `tlsSecretName`. -/
theorem build_ingress_drops_annotations_and_tls :
    ∃ ing, build_ingress c2Eph "example.com" = some ing ∧
      ing.metadata.annotations = none ∧
      ing.spec = some
        { rules := some
            [{ host := some "x2.example.com",
               http := some
                 { paths :=
                     [{ path := some "/",
                        pathType := some "Prefix",
                        backend :=
                          { service := some
                              { name := "x2",
                                port := some { number := some 80, name := none } },
                            resource := none } }] } }],
          tls := none } ∧
      c2Eph.spec.service.ingressAnnotations = [("kubernetes.io/ingress.class", "nginx")] ∧
      c2Eph.spec.service.tlsSecretName = some "tls-secret" := by
  refine ⟨_, rfl, rfl, ?_, rfl, rfl⟩
  decide

/-! ## Claim C5: foreign subject gets 403 and no mutation -/

/-- Claim C5: on GET, PATCH and DELETE of an Ephemeron whose `created-by`
annotation differs from the token subject, each handler responds 403
Forbidden, issues no spec patch and no delete. -/
theorem foreign_sub_gets_403 (eph : Ephemeron) (owner : String) (claims : Claims)
    (payload : PatchPayload) (now : Int) (pr dr : KubeResult)
    (hOwner : lookupKey eph.metadata.annotations CREATED_BY = some owner)
    (hNe : owner ≠ claims.sub) :
    handlers_get (.ok eph) claims = { status := 403, body := none } ∧
    handlers_patch (.ok eph) claims payload now pr =
      { status := 403, patchRequested := none, body := none } ∧
    handlers_delete (.ok eph) claims dr = { status := 403, deleteIssued := false } := by
  have hacc : has_access eph claims.sub = false := by
    rw [has_access_of_owner eph owner claims.sub hOwner]
    simp [hNe]
  refine ⟨?_, ?_, ?_⟩ <;> simp [handlers_get, handlers_patch, handlers_delete, hacc]

/-- Ephemeron owned by `u1.a`, used in the C5 witness. -/
def c5Eph : Ephemeron :=
  { metadata := { name := "x5", annotations := [(CREATED_BY, "u1.a")] },
    spec := { expirationTime := 100, service := { image := "nginx", port := 80 } } }

/-- Claims of a different subject `u2.a`, used in the C5 witness. -/
def c5Claims : Claims := { sub := "u2.a", exp := 0 }

/-- Claim C5 (witness): concrete instance of `foreign_sub_gets_403`. -/
theorem foreign_sub_gets_403_witness :
    handlers_get (.ok c5Eph) c5Claims = { status := 403, body := none } ∧
    handlers_patch (.ok c5Eph) c5Claims { lifetimeMinutes := 10 } 0 .ok =
      { status := 403, patchRequested := none, body := none } ∧
    handlers_delete (.ok c5Eph) c5Claims .ok = { status := 403, deleteIssued := false } :=
  foreign_sub_gets_403 c5Eph "u1.a" c5Claims { lifetimeMinutes := 10 } 0 .ok .ok
    (by decide) (by decide)

/-! ## Claim C9: missing created-by annotation locks the resource -/

/-- Claim C9: when the Ephemeron has no `created-by` annotation at all,
`has_access` fails for every subject, so GET, PATCH and DELETE respond 403
Forbidden with no mutation, regardless of the token. -/
theorem no_owner_annotation_gets_403 (eph : Ephemeron) (claims : Claims)
    (payload : PatchPayload) (now : Int) (pr dr : KubeResult)
    (hNone : lookupKey eph.metadata.annotations CREATED_BY = none) :
    has_access eph claims.sub = false ∧
    handlers_get (.ok eph) claims = { status := 403, body := none } ∧
    handlers_patch (.ok eph) claims payload now pr =
      { status := 403, patchRequested := none, body := none } ∧
    handlers_delete (.ok eph) claims dr = { status := 403, deleteIssued := false } := by
  have hacc : has_access eph claims.sub = false := has_access_of_no_owner eph claims.sub hNone
  refine ⟨hacc, ?_, ?_, ?_⟩ <;>
    simp [handlers_get, handlers_patch, handlers_delete, hacc]

/-- Ephemeron with no annotations at all, used in the C9 witness. -/
def c9Eph : Ephemeron :=
  { metadata := { name := "x9" },
    spec := { expirationTime := 100, service := { image := "nginx", port := 80 } } }

/-- Claim C9 (witness): concrete instance of `no_owner_annotation_gets_403`,
with the creator itself among the rejected subjects. -/
theorem no_owner_annotation_gets_403_witness :
    has_access c9Eph "u1.a" = false ∧
    handlers_get (.ok c9Eph) { sub := "u1.a", exp := 0 } = { status := 403, body := none } ∧
    handlers_patch (.ok c9Eph) { sub := "u1.a", exp := 0 } { lifetimeMinutes := 10 } 0 .ok =
      { status := 403, patchRequested := none, body := none } ∧
    handlers_delete (.ok c9Eph) { sub := "u1.a", exp := 0 } .ok =
      { status := 403, deleteIssued := false } :=
  no_owner_annotation_gets_403 c9Eph { sub := "u1.a", exp := 0 }
    { lifetimeMinutes := 10 } 0 .ok .ok rfl

/-! ## Claim C7: pod readiness condition sync -/

/-- Claim C7: when the pod exists, the pod sub-reconciler compares the
Ephemeron's `PodReady` condition with the pod's `Ready` condition; on
agreement it returns `Done` with no writes, and on disagreement (in either
direction) it sets `PodReady` to the observed value and returns
`AwaitChange`. -/
theorem pod_ready_condition_sync (eph : Ephemeron) (p : Pod) (createRes : KubeResult) :
    (eph.isPodReady = pod_is_ready p →
      pod_reconcile eph (some p) createRes =
        some (Except.ok { podReadySet := none, availableSet := none,
                          createdPod := none, action := none })) ∧
    (eph.isPodReady ≠ pod_is_ready p →
      pod_reconcile eph (some p) createRes =
        some (Except.ok { podReadySet := some (some (pod_is_ready p)), availableSet := none,
                          createdPod := none, action := some .awaitChange })) := by
  constructor <;> intro h <;>
    cases hb : eph.isPodReady <;> cases hc : pod_is_ready p <;>
      simp_all [pod_reconcile]

/-- Ephemeron currently marked `PodReady=True`, used in the C7 witness. -/
def c7Eph : Ephemeron :=
  { metadata := { name := "x7" },
    spec := { expirationTime := 100, service := { image := "nginx", port := 80 } },
    status := some { conditions := [.podReady (some true) 0] } }

/-- Pod whose `Ready` condition is `False`, used in the C7 witness. -/
def c7Pod : Pod :=
  { metadata := { name := some "x7" },
    status := some { conditions := some [{ type_ := "Ready", status := "False" }] } }

/-- Claim C7 (witness): concrete disagreement (Ephemeron says ready, pod
does not), resolved by `pod_ready_condition_sync`. -/
theorem pod_ready_condition_sync_witness :
    pod_reconcile c7Eph (some c7Pod) .ok =
      some (Except.ok { podReadySet := some (some false), availableSet := none,
                        createdPod := none, action := some .awaitChange }) := by
  have h := (pod_ready_condition_sync c7Eph c7Pod .ok).2 (by decide)
  simpa using h

/-! ## Claim C4: create handler -/

/-- Claims with `gid` set, used in the C4 evidence. -/
def c4Claims : Claims := { sub := "u1.a", exp := 0, gid := some "g1.a" }

/-- Payload of the C4 evidence. -/
def c4Payload : PresetPayload := { preset := "echo", lifetimeMinutes := 5 }

/-- Presets map of the C4 evidence. -/
def c4Presets : List (String × EphemeronService) := [("echo", { image := "nginx", port := 80 })]

/-- Claim C4 (counterexample): the create handler succeeds with `gid` set,
yet the created Ephemeron has no `pod_labels["group"]` entry — the label
key the code uses is `ephemerons.qualified.io/group`, not `group`. -/
theorem create_group_label_key_counterexample :
    ∃ out, handlers_create c4Claims c4Payload c4Presets "x9" 0 .ok = Except.ok out ∧
      c4Claims.gid = some "g1.a" ∧
      lookupKey out.createdEph.spec.service.podLabels "group" = none ∧
      lookupKey out.createdEph.spec.service.podLabels GROUP_LABEL = some "g1.a" := by
  refine ⟨_, rfl, rfl, ?_, ?_⟩ <;> decide

/-- Claim C4 (amended): for every `POST /` with a preset present, the
created Ephemeron carries `created-by = claims.sub`, its `spec.service` is
the preset (with, exactly when `claims.gid` is set,
`pod_labels["ephemerons.qualified.io/group"] = claims.gid` inserted), and
the response is 202 with `{id, expirationTime}`. -/
theorem create_sets_owner_preset_and_group_label (claims : Claims) (payload : PresetPayload)
    (presets : List (String × EphemeronService)) (preset : EphemeronService)
    (id : String) (now : Int)
    (hp : lookupKey presets payload.preset = some preset) :
    ∃ out, handlers_create claims payload presets id now .ok = Except.ok out ∧
      out.response.status = 202 ∧
      out.response.id = id ∧
      out.response.expirationTime = now + (payload.lifetimeMinutes * 60) % 2 ^ 32 ∧
      out.createdEph.spec.expirationTime = out.response.expirationTime ∧
      lookupKey out.createdEph.metadata.annotations CREATED_BY = some claims.sub ∧
      (∀ g, claims.gid = some g →
        out.createdEph.spec.service =
          { preset with podLabels := mapInsert preset.podLabels GROUP_LABEL g } ∧
        lookupKey out.createdEph.spec.service.podLabels GROUP_LABEL = some g) ∧
      (claims.gid = none → out.createdEph.spec.service = preset) := by
  have hlook : ∀ v : String, lookupKey (mapInsert ([] : StrMap) CREATED_BY v) CREATED_BY = some v := by
    intro v
    simp [mapInsert, lookupKey]
  have hgl : ∀ (m : StrMap) (g : String), lookupKey (mapInsert m GROUP_LABEL g) GROUP_LABEL = some g := by
    intro m g
    induction m with
    | nil => simp [mapInsert, lookupKey]
    | cons hd tl ih =>
      by_cases hk : hd.1 = GROUP_LABEL <;>
        simp [mapInsert, lookupKey, hk, ih]
  rcases hg : claims.gid with _ | g <;>
    simp only [handlers_create, hp, get_duration_eq, hg, Ephemeron.new] <;>
    refine ⟨_, rfl, ?_⟩ <;>
      simp [hlook, hgl]

/-- The preset stored in `c4Presets` under the name `echo`. -/
def c4Preset : EphemeronService := { image := "nginx", port := 80 }

/-- Claim C4 (witness): concrete instance of
`create_sets_owner_preset_and_group_label` on the C4 inputs. -/
theorem create_sets_owner_preset_and_group_label_witness :
    ∃ out, handlers_create c4Claims c4Payload c4Presets "x4w" 0 .ok = Except.ok out ∧
      out.response.status = 202 ∧
      out.response.id = "x4w" ∧
      out.response.expirationTime = 0 + (c4Payload.lifetimeMinutes * 60) % 2 ^ 32 ∧
      out.createdEph.spec.expirationTime = out.response.expirationTime ∧
      lookupKey out.createdEph.metadata.annotations CREATED_BY = some c4Claims.sub ∧
      (∀ g, c4Claims.gid = some g →
        out.createdEph.spec.service =
          { c4Preset with podLabels := mapInsert c4Preset.podLabels GROUP_LABEL g } ∧
        lookupKey out.createdEph.spec.service.podLabels GROUP_LABEL = some g) ∧
      (c4Claims.gid = none → out.createdEph.spec.service = c4Preset) :=
  create_sets_owner_preset_and_group_label c4Claims c4Payload c4Presets
    c4Preset "x4w" 0 (by decide)

/-! ## Claim C1: endpoints reconciler and the external probe -/

/-- Ephemeron with endpoints ready, not yet available, and no readiness
probe configured — the C1 counterexample input. -/
def c1Eph : Ephemeron :=
  { metadata := { name := "x1", uid := some "uid-1" },
    spec := { expirationTime := 100, service := { image := "nginx", port := 80 } },
    status := some { conditions := [.available (some false) 0, .podReady (some true) 0] } }

/-- Endpoints object with one ready address, shared by the C1 evidence. -/
def c1ReadyEndpoints : Endpoints := { subsets := some [{ addresses := some ["10.0.0.1"] }] }

/-- Claim C1 (counterexample): with no `readinessProbe` configured, the
endpoints reconciler issues no HTTP GET at all (`probeUri = none`) and
still sets `host` and `Available=True` — even under a transport-error
oracle, for which the claim prescribes `host=null` and `Available=False`.
So "performs an out-of-cluster HTTP GET ... only on a 200 response does it
set the host annotation" is false as stated. -/
theorem endpoints_probe_skipped_counterexample :
    c1Eph.isAvailable = false ∧
    endpoints_has_ready c1ReadyEndpoints = true ∧
    endpoints_reconcile c1Eph "example.com" (some c1ReadyEndpoints) ProbeOutcome.connError =
      { probeUri := none, hostPatch := some (some "x1.example.com"),
        availableSet := some (some true), action := some ReconcilerAction.awaitChange } := by
  refine ⟨?_, ?_, ?_⟩ <;> decide

/-- Claim C1 (amended): for every reconciliation where the endpoints object
reports a ready address, the Ephemeron is not yet available, and
`spec.service.readinessProbe` is set, the reconciler issues a GET to
`http://<id>.<domain><probe.path>`; on 200 it sets `host=<id>.<domain>` and
`Available=True` and returns `AwaitChange`; on any other status it returns
`RequeueAfter(1s)` with no writes; on a transport error it sets `host=null`
and `Available=False` and returns `AwaitChange`. -/
theorem endpoints_probe_gating (eph : Ephemeron) (domain : String) (eps : Endpoints)
    (probe : ProbeOutcome) (pr : HttpGetProbe)
    (hProbe : eph.spec.service.readinessProbe = some pr)
    (hAvail : eph.isAvailable = false)
    (hReady : endpoints_has_ready eps = true) :
    (endpoints_reconcile eph domain (some eps) probe).probeUri =
      some ("http://" ++ (eph.metadata.name ++ "." ++ domain) ++ pr.path) ∧
    (probe = .status 200 →
      endpoints_reconcile eph domain (some eps) probe =
        { probeUri := some ("http://" ++ (eph.metadata.name ++ "." ++ domain) ++ pr.path),
          hostPatch := some (some (eph.metadata.name ++ "." ++ domain)),
          availableSet := some (some true), action := some .awaitChange }) ∧
    (∀ code, code ≠ 200 → probe = .status code →
      endpoints_reconcile eph domain (some eps) probe =
        { probeUri := some ("http://" ++ (eph.metadata.name ++ "." ++ domain) ++ pr.path),
          hostPatch := none, availableSet := none,
          action := some (.requeueAfter 1) }) ∧
    (probe = .connError →
      endpoints_reconcile eph domain (some eps) probe =
        { probeUri := some ("http://" ++ (eph.metadata.name ++ "." ++ domain) ++ pr.path),
          hostPatch := some none,
          availableSet := some (some false), action := some .awaitChange }) := by
  rcases probe with code | _
  · by_cases hc : code = 200
    · simp [endpoints_reconcile, hProbe, hAvail, hReady, hc]
      exact fun c h he => h he.symm
    · simp [endpoints_reconcile, hProbe, hAvail, hReady, hc]
  · simp [endpoints_reconcile, hProbe, hAvail, hReady]

/-- Ephemeron with a readiness probe at `/healthz`, not yet available, for
the C1 witness. -/
def c1wEph : Ephemeron :=
  { metadata := { name := "w1", uid := some "uid-w1" },
    spec := { expirationTime := 100,
              service := { image := "nginx", port := 80,
                           readinessProbe := some { path := "/healthz" } } },
    status := some { conditions := [] } }

/-- Claim C1 (witness): concrete 200-probe instance of
`endpoints_probe_gating`. -/
theorem endpoints_probe_gating_witness :
    endpoints_reconcile c1wEph "example.com" (some c1ReadyEndpoints) (ProbeOutcome.status 200) =
      { probeUri := some ("http://" ++ ("w1" ++ "." ++ "example.com") ++ "/healthz"),
        hostPatch := some (some ("w1" ++ "." ++ "example.com")),
        availableSet := some (some true), action := some .awaitChange } :=
  (endpoints_probe_gating c1wEph "example.com" c1ReadyEndpoints (.status 200)
    { path := "/healthz" } rfl rfl rfl).2.1 rfl

/-! ## Claim C6: token issuance characterization -/

/-- Claim C6: for a known app with matching key (and an app short enough
for the `usize` bound `63 - (len(app) + 1)` to be well defined), the token
is issued exactly when `uid` (and `gid` when present) is non-empty, all
ASCII alphanumeric, and satisfies `len(id) + 1 + len(app) ≤ 63`; a uid of
byte length `63 - len(app)` is rejected with `InvalidUserId`, a 400. -/
theorem token_issuance_characterization (apps : StrMap) (req : TokenRequest) (key : String) (now : Nat)
    (hApp : lookupKey apps req.app = some key) (hKey : req.key = key)
    (hLen : req.app.utf8ByteSize + 1 ≤ 63) :
    ((∃ c, token apps req now = some (Except.ok c)) ↔
       ((req.uid.utf8ByteSize ≠ 0 ∧ req.uid.utf8ByteSize + 1 + req.app.utf8ByteSize ≤ 63 ∧
          req.uid.toList.all Char.isAlphanum = true) ∧
        (∀ g, req.gid = some g →
          (g.utf8ByteSize ≠ 0 ∧ g.utf8ByteSize + 1 + req.app.utf8ByteSize ≤ 63 ∧
           g.toList.all Char.isAlphanum = true)))) ∧
    (req.uid.utf8ByteSize = 63 - req.app.utf8ByteSize →
      token apps req now = some (Except.error AuthError.invalidUserId) ∧
      authErrorStatus AuthError.invalidUserId = 400) := by
  obtain ⟨m, hm, hmval⟩ :
      ∃ m, checkedSub 63 (req.app.utf8ByteSize + 1) = some m ∧
        m = 63 - (req.app.utf8ByteSize + 1) :=
    ⟨_, by simp [checkedSub, hLen], rfl⟩
  have hval : ∀ s : String, is_valid_id s m = true ↔
      (s.utf8ByteSize ≠ 0 ∧ s.utf8ByteSize + 1 + req.app.utf8ByteSize ≤ 63 ∧
       s.toList.all Char.isAlphanum = true) := by
    intro s
    rw [is_valid_id_iff]
    constructor
    · rintro ⟨a, b, c⟩
      exact ⟨a, by omega, c⟩
    · rintro ⟨a, b, c⟩
      exact ⟨a, by omega, c⟩
  constructor
  · by_cases hu : is_valid_id req.uid m = true
    · rcases hg : req.gid with _ | g
      · have hrun : token apps req now =
            some (Except.ok { sub := req.uid ++ "." ++ req.app, exp := now + 300, gid := none }) := by
          simp [token, hApp, hKey, hm, hg, hu]
        refine ⟨fun _ => ⟨(hval _).mp hu, fun g2 hgeq => ?_⟩, fun _ => ⟨_, hrun⟩⟩
        cases hgeq
      · by_cases hgv : is_valid_id g m = true
        · have hrun : token apps req now =
              some (Except.ok { sub := req.uid ++ "." ++ req.app, exp := now + 300,
                                gid := some (g ++ "." ++ req.app) }) := by
            simp [token, hApp, hKey, hm, hg, hu, hgv]
          refine ⟨fun _ => ⟨(hval _).mp hu, fun g2 hgeq => ?_⟩, fun _ => ⟨_, hrun⟩⟩
          injection hgeq with h2
          subst h2
          exact (hval _).mp hgv
        · rw [Bool.not_eq_true] at hgv
          have hrun : token apps req now = some (Except.error AuthError.invalidGroupId) := by
            simp [token, hApp, hKey, hm, hg, hu, hgv]
          constructor
          · rintro ⟨c, hc⟩
            rw [hrun] at hc
            cases hc
          · rintro ⟨_, hall⟩
            have h2 := (hval g).mpr (hall g rfl)
            rw [h2] at hgv
            cases hgv
    · rw [Bool.not_eq_true] at hu
      have hrun : token apps req now = some (Except.error AuthError.invalidUserId) := by
        simp [token, hApp, hKey, hm, hu]
      constructor
      · rintro ⟨c, hc⟩
        rw [hrun] at hc
        cases hc
      · rintro ⟨huid, _⟩
        have h2 := (hval _).mpr huid
        rw [h2] at hu
        cases hu
  · intro hU
    have hu : is_valid_id req.uid m = false := by
      rw [Bool.eq_false_iff]
      intro hcontra
      have := ((hval _).mp hcontra).2.1
      omega
    refine ⟨?_, rfl⟩
    simp [token, hApp, hKey, hm, hu]

/-- Apps map with the single app `a`, for the C6 witness. -/
def c6Apps : StrMap := [("a", "k")]

/-- Boundary request whose uid has byte length `63 - len("a") - 1 = 61`. -/
def c6BoundaryOkReq : TokenRequest :=
  { app := "a", key := "k", uid := String.mk (List.replicate 61 'u') }

/-- Boundary request whose uid has byte length `63 - len("a") = 62`. -/
def c6BoundaryBadReq : TokenRequest :=
  { app := "a", key := "k", uid := String.mk (List.replicate 62 'u') }

/-- Claim C6 (witness): on app `a`, a 61-byte alphanumeric uid is issued a
token and a 62-byte one is rejected with `InvalidUserId` (status 400),
both by `token_issuance_characterization`. -/
theorem token_issuance_characterization_witness :
    (∃ c, token c6Apps c6BoundaryOkReq 0 = some (Except.ok c)) ∧
    (token c6Apps c6BoundaryBadReq 0 = some (Except.error AuthError.invalidUserId) ∧
     authErrorStatus AuthError.invalidUserId = 400) :=
  ⟨(token_issuance_characterization c6Apps c6BoundaryOkReq "k" 0 rfl rfl (by decide)).1.mpr
     ⟨by decide, fun g h => by simp [c6BoundaryOkReq] at h⟩,
   (token_issuance_characterization c6Apps c6BoundaryBadReq "k" 0 rfl rfl (by decide)).2
     (by decide)⟩

/-! ## Claim C10: the max-id-length subtraction and its underflow -/

/-- Claim C10: the bound `63 - (len(app) + 1)` computed by the token
handler underflows exactly when `len(app) > 62`; at `len(app) = 62` the
bound is 0 and `is_valid_id` rejects every uid, so the handler answers
`InvalidUserId` for every request on such an app; at `len(app) ≥ 63` the
`usize` subtraction underflows (modelled as `none`: a panic under overflow
checks, wraparound otherwise). -/
theorem max_id_len_underflow :
    (∀ n, (checkedSub 63 (n + 1)).isSome ↔ n ≤ 62) ∧
    checkedSub 63 (62 + 1) = some 0 ∧
    (∀ s, is_valid_id s 0 = false) ∧
    (∀ (apps : StrMap) (req : TokenRequest) (key : String) (now : Nat),
      lookupKey apps req.app = some key → req.key = key →
      req.app.utf8ByteSize = 62 →
      token apps req now = some (Except.error AuthError.invalidUserId)) ∧
    (∀ (apps : StrMap) (req : TokenRequest) (key : String) (now : Nat),
      lookupKey apps req.app = some key → req.key = key →
      63 ≤ req.app.utf8ByteSize → token apps req now = none) := by
  have hvalid0 : ∀ s : String, is_valid_id s 0 = false := by
    intro s
    by_cases h : s.utf8ByteSize = 0 <;> simp [is_valid_id, h]
  refine ⟨?_, ?_, hvalid0, ?_, ?_⟩
  · intro n
    by_cases h : n + 1 ≤ 63 <;> simp [checkedSub, h] <;> omega
  · simp [checkedSub]
  · intro apps req key now hApp hKey hA
    have hm : checkedSub 63 (req.app.utf8ByteSize + 1) = some 0 := by
      simp [checkedSub, hA]
    simp [token, hApp, hKey, hm, hvalid0]
  · intro apps req key now hApp hKey hA
    have hb : ¬(req.app.utf8ByteSize + 1 ≤ 63) := by omega
    have hm : checkedSub 63 (req.app.utf8ByteSize + 1) = none := by
      simp [checkedSub, hb]
    simp [token, hApp, hKey, hm]

/-- App name of 62 bytes, for the C10 witness. -/
def c10App62 : String := String.mk (List.replicate 62 'a')

/-- App name of 63 bytes, for the C10 witness. -/
def c10App63 : String := String.mk (List.replicate 63 'a')

/-- Claim C10 (witness): on a 62-byte app every uid is rejected, and on a
63-byte app the subtraction underflows, both by `max_id_len_underflow`. -/
theorem max_id_len_underflow_witness :
    token [(c10App62, "k")] { app := c10App62, key := "k", uid := "u" } 0 =
      some (Except.error AuthError.invalidUserId) ∧
    token [(c10App63, "k")] { app := c10App63, key := "k", uid := "u" } 0 = none :=
  ⟨max_id_len_underflow.2.2.2.1 _ _ "k" 0 (by decide) rfl (by decide),
   max_id_len_underflow.2.2.2.2 _ _ "k" 0 (by decide) rfl (by decide)⟩
